import Mathlib

/-!
Verification development for the EU-GDPR-Git-Validator core: a shallow
embedding of the history scanner (`git_scanner.py`), the compliance rule
engine (`gdpr_analyser.py`) and the quick compliance checker
(`compliance_checker.py`), with theorems settling the frozen claims about
their behaviour.

Modelling conventions:
- Python sets are modelled as insertion-ordered duplicate-free lists built
  with `insertIfAbsent` (membership-guarded append), matching `set.add` and
  `set.update` observably.
- Python dicts with a fixed key set are modelled as structures; keys that
  are only present on some paths become `Option` fields; dict value
  overwrite (`d[k] = v`) on an iteration-ordered dict is `updateAssoc`.
- The compiled regular expressions held by `GitScanner.__init__`
  (`email_pattern`, `personal_data_patterns`) are calls into Python's `re`
  library; they are modelled as opaque-function *fields* of the scanner
  structure (`findall`-style `String → List String`), exactly as the class
  carries them on `self`.  No claim depends on the regex semantics.
- The `datetime` library is modelled by a `DatetimeLib` structure
  (`fromisoformat ∘ isoformat` round-trip on ISO strings, and
  `(b - a).days`).  `datetime.now()` timestamps are threaded as a `now`
  string parameter.
- GitPython's repository handle is modelled by `Repo`: the branch list and
  the `iter_commits()` stream.  A stream element is `ok` (the commit is
  delivered and its record builds fine), `procFail` (the commit is
  delivered but building its record raises, e.g. `commit.stats` on a
  corrupt object), or `iterFail` (advancing the iterator itself raises).
  The first-parent diff of a commit (`parents[0].diff(commit)`) either
  returns diff items or raises; it is carried on the commit as an
  `Except Unit (List DiffItem)`.
- Python float division (hash entropy) is modelled as exact `Rat` division.
-/

namespace GDPRValidator

/-- Python `set.add` observable semantics on an insertion-ordered list:
append the element only when it is not already present. -/
def insertIfAbsent {α : Type} [DecidableEq α] (x : α) (l : List α) : List α :=
  if x ∈ l then l else l ++ [x]

/-- Python dict assignment `d[k] = v` on an insertion-ordered association
list: overwrite in place, or append when the key is new. -/
def updateAssoc {β : Type} (k : Nat) (v : β) : List (Nat × β) → List (Nat × β)
  | [] => [(k, v)]
  | (k2, v2) :: rest => if k2 = k then (k, v) :: rest else (k2, v2) :: updateAssoc k v rest

/-- Python `a or b` on optional strings (`None` and `""` are falsy). -/
def pyOr (a b : Option String) : Option String :=
  match a with
  | some s => if s.isEmpty then b else some s
  | none => b

/-- How an optional string renders inside a Python f-string (`None` prints
as the text `None`). -/
def renderOpt : Option String → String
  | some s => s
  | none => "None"

/-! ## git_scanner.py — data model -/

/-- One entry of a GitPython diff: decoded patch text (`None`/empty bytes
are falsy and skipped) and the two paths. -/
structure DiffItem where
  diff : Option String
  a_path : Option String
  b_path : Option String

/-- A commit as read from the repository: identity fields, message, parent
hashes, change stats, and the outcome of computing the first-parent diff
(`parents[0].diff(commit, create_patch=True)` either returns items or
raises). -/
structure Commit where
  hash : String
  author_name : String
  author_email : String
  author_timestamp : String
  committer_name : String
  committer_email : String
  committer_timestamp : String
  message : String
  parents : List String
  files_changed : Nat
  insertions : Nat
  deletions : Nat
  diff : Except Unit (List DiffItem)

/-- A branch: a name and its tip commit. -/
structure Branch where
  name : String
  commit : Commit

/-- One step of the `iter_commits()` stream: the commit is delivered and
its record builds (`ok`), the commit is delivered but building the record
raises (`procFail`), or advancing the iterator raises (`iterFail`). -/
inductive CommitItem where
  | ok (c : Commit)
  | procFail (c : Commit)
  | iterFail

/-- Whether a stream step delivers a commit without an error. -/
def CommitItem.isOk : CommitItem → Bool
  | CommitItem.ok _ => true
  | _ => false

/-- The repository handle: its branches and its commit-history stream. -/
structure Repo where
  branches : List Branch
  commitStream : List CommitItem

/-- The `GitScanner` instance state set up by `__init__`: the repository
path, the verbose flag, and the compiled pattern matchers (`findall`-style
functions; the concrete regexes live in Python's `re` library). -/
structure GitScanner where
  repository_path : String
  verbose : Bool
  email_pattern : String → List String
  personal_data_patterns : List (String × (String → List String))

/-- Per-commit findings of `_check_commit_for_pii`. -/
structure PiiFound where
  emails : List String
  potential_pii : List String
  sensitive_patterns : List String

/-- The per-commit dictionary built by `_scan_commit_history` (the nested
`author`/`committer` dicts are flattened into prefixed fields). -/
structure CommitData where
  hash : String
  short_hash : String
  author_name : String
  author_email : String
  author_timestamp : String
  committer_name : String
  committer_email : String
  committer_timestamp : String
  message : String
  files_changed : Nat
  insertions : Nat
  deletions : Nat
  personal_data_found : PiiFound
  parents : List String

/-- The per-branch dictionary built by `_scan_branches` (the nested
`last_commit` dict is flattened). -/
structure BranchData where
  name : String
  last_hash : String
  author_name : String
  author_email : String
  committer_name : String
  committer_email : String
  timestamp : String
  message : String
  personal_data_exposure : PiiFound

/-- The aggregated personal-data sets of `_extract_personal_data`
(the three sets as insertion-ordered duplicate-free lists; `potential_pii`
is a plain list in the source too). -/
structure PersonalData where
  emails : List String
  authors : List String
  committers : List String
  potential_pii : List String

/-- The retention summary of `_analyze_data_retention`; the whole record is
absent (`{}` in the source) when there are no commits. -/
structure DataRetention where
  first_commit_date : String
  last_commit_date : String
  retention_period_days : Int
  total_commits : Nat
  data_erasure_possible : Bool
  retention_justification : String

/-- The hash-permanence summary of `_analyze_hash_permanence`; the sample
and entropy keys exist only when there is at least one commit. -/
structure HashAnalysis where
  total_hashes : Nat
  hash_algorithm : String
  permanence_issues : List String
  erasure_impossible : Bool
  sample_hashes : Option (List String)
  hash_entropy : Option Rat

/-- A cross-border indicator of `_detect_cross_border_transfers`; the
`countries` key exists only on the multi-country indicator and the
`legal_basis` key only on the platform indicator. -/
structure Indicator where
  type : String
  description : String
  countries : Option (List String)
  gdpr_implication : String
  legal_basis : Option String

/-- The return value of `_scan_commit_history`. -/
structure ScanHist where
  commits : List CommitData
  total_count : Nat

/-- The scan-results dictionary returned by `scan_repository` (after
`_serialize_results`, which turns the sets into lists — the identity in
this model). -/
structure ScanResults where
  repository_path : String
  scan_timestamp : String
  total_commits : Nat
  total_branches : Nat
  personal_data : PersonalData
  commit_analysis : List CommitData
  branch_analysis : List BranchData
  data_retention : Option DataRetention
  cross_border_indicators : List Indicator
  hash_analysis : HashAnalysis

/-- The slice of Python's `datetime` library the scanner uses:
`fromisoformat` followed by `.isoformat()` on an ISO string, and
`(b - a).days` on two parsed datetimes. -/
structure DatetimeLib where
  fromiso : String → String
  daysBetween : String → String → Int

/-! ## git_scanner.py — functions -/

/-- The sensitive-pattern findings of `_check_commit_for_pii` over the
commit message: for each named pattern, every match tagged
`"<name>: <match>"`, in table order. -/
def messagePatternFindings (sc : GitScanner) (message : String) : List String :=
  sc.personal_data_patterns.foldl
    (fun acc p =>
      let found := p.2 message
      if found.isEmpty then acc
      else acc ++ found.map (fun m => p.1 ++ ": " ++ m))
    []

/-- The diff part of `_check_commit_for_pii`: over the first 10 diff items,
emails found in each decoded patch text, and pattern matches tagged
`"<name> in <path>: <match>"`.  Items whose `diff` attribute is falsy are
skipped. -/
def diffFindings (sc : GitScanner) (items : List DiffItem) :
    List String × List String :=
  (items.take 10).foldl
    (fun (acc : List String × List String) item =>
      match item.diff with
      | none => acc
      | some t =>
        if t.isEmpty then acc
        else
          (acc.1 ++ sc.email_pattern t,
           acc.2 ++ sc.personal_data_patterns.foldl
             (fun acc2 p =>
               let ms := p.2 t
               if ms.isEmpty then acc2
               else acc2 ++ ms.map (fun m =>
                 p.1 ++ " in " ++ renderOpt (pyOr item.a_path item.b_path) ++ ": " ++ m))
             []))
    ([], [])

/-- `_check_commit_for_pii`: message emails and sensitive patterns always;
diff-derived emails and potential-PII only when the commit has a parent and
the diff computation did not raise (a raise is swallowed and the
message-derived findings are returned as-is). -/
def check_commit_for_pii (sc : GitScanner) (c : Commit) : PiiFound :=
  let emails := sc.email_pattern c.message
  let sensitive := messagePatternFindings sc c.message
  match c.parents with
  | [] => ⟨emails, [], sensitive⟩
  | _ :: _ =>
    match c.diff with
    | Except.error _ => ⟨emails, [], sensitive⟩
    | Except.ok items =>
      let d := diffFindings sc items
      ⟨emails ++ d.1, d.2, sensitive⟩

/-- The commit dictionary `_scan_commit_history` builds for one commit. -/
def commitDataOf (sc : GitScanner) (c : Commit) : CommitData :=
  { hash := c.hash
    short_hash := c.hash.take 8
    author_name := c.author_name
    author_email := c.author_email
    author_timestamp := c.author_timestamp
    committer_name := c.committer_name
    committer_email := c.committer_email
    committer_timestamp := c.committer_timestamp
    message := c.message.trim
    files_changed := c.files_changed
    insertions := c.insertions
    deletions := c.deletions
    personal_data_found := check_commit_for_pii sc c
    parents := c.parents }

/-- The loop of `_scan_commit_history`: count the commit, build and append
its record, break at the 10,000 cap; a record-building raise (`procFail`)
leaves the commit counted but not appended, an iterator raise (`iterFail`)
leaves the count as is — both are swallowed by the surrounding
`try/except`, which returns whatever was accumulated. -/
def scanGo (sc : GitScanner) : List CommitItem → List CommitData → Nat → ScanHist
  | [], acc, n => ⟨acc.reverse, n⟩
  | CommitItem.iterFail :: _, acc, n => ⟨acc.reverse, n⟩
  | CommitItem.procFail _ :: _, acc, n => ⟨acc.reverse, n + 1⟩
  | CommitItem.ok c :: rest, acc, n =>
    let acc2 := commitDataOf sc c :: acc
    if 10000 ≤ n + 1 then ⟨acc2.reverse, n + 1⟩
    else scanGo sc rest acc2 (n + 1)

/-- `_scan_commit_history`. -/
def scan_commit_history (sc : GitScanner) (stream : List CommitItem) : ScanHist :=
  scanGo sc stream [] 0

/-- `_scan_branches`. -/
def scan_branches (sc : GitScanner) (repo : Repo) : List BranchData :=
  repo.branches.map (fun b =>
    { name := b.name
      last_hash := b.commit.hash
      author_name := b.commit.author_name
      author_email := b.commit.author_email
      committer_name := b.commit.committer_name
      committer_email := b.commit.committer_email
      timestamp := b.commit.committer_timestamp
      message := b.commit.message.trim
      personal_data_exposure := check_commit_for_pii sc b.commit })

/-- The author identity string `"name <email>"` added to the `authors` set. -/
def authorStr (cd : CommitData) : String :=
  cd.author_name ++ " <" ++ cd.author_email ++ ">"

/-- The committer identity string `"name <email>"` added to the
`committers` set. -/
def committerStr (cd : CommitData) : String :=
  cd.committer_name ++ " <" ++ cd.committer_email ++ ">"

/-- One step of the `_extract_personal_data` fold over a commit: add the
author and committer identity strings to their sets, union the found emails
into the email set, and append potential PII then sensitive patterns to the
`potential_pii` list (the source guards each of the last three updates on
the list being truthy; an empty list makes each a no-op either way). -/
def extractStep (pd : PersonalData) (cd : CommitData) : PersonalData :=
  { emails :=
      if cd.personal_data_found.emails.isEmpty then pd.emails
      else cd.personal_data_found.emails.foldl (fun s e => insertIfAbsent e s) pd.emails
    authors := insertIfAbsent (authorStr cd) pd.authors
    committers := insertIfAbsent (committerStr cd) pd.committers
    potential_pii :=
      (if cd.personal_data_found.potential_pii.isEmpty then pd.potential_pii
       else pd.potential_pii ++ cd.personal_data_found.potential_pii)
      ++ (if cd.personal_data_found.sensitive_patterns.isEmpty then []
          else cd.personal_data_found.sensitive_patterns) }

/-- `_extract_personal_data`. -/
def extract_personal_data (commits : List CommitData) : PersonalData :=
  commits.foldl extractStep ⟨[], [], [], []⟩

/-- Stable insertion into a timestamp-sorted list (Python's `sorted` with
`key=lambda x: x['author']['timestamp']` is a stable sort on the key
string). -/
def insertByTs (c : CommitData) : List CommitData → List CommitData
  | [] => [c]
  | x :: xs =>
    if c.author_timestamp ≤ x.author_timestamp then c :: x :: xs
    else x :: insertByTs c xs

/-- Sorting the commit records by author timestamp. -/
def sortByAuthorTs (commits : List CommitData) : List CommitData :=
  commits.foldr insertByTs []

/-- `_analyze_data_retention`: empty dict on an empty commit list,
otherwise the span between the oldest and newest author timestamp. -/
def analyze_data_retention (dt : DatetimeLib) (commits : List CommitData) :
    Option DataRetention :=
  match commits with
  | [] => none
  | _ :: _ =>
    let sorted := sortByAuthorTs commits
    let firstTs := ((sorted.head?.map (fun cd => cd.author_timestamp)).getD "").replace "Z" "+00:00"
    let lastTs := ((sorted.getLast?.map (fun cd => cd.author_timestamp)).getD "").replace "Z" "+00:00"
    let first := dt.fromiso firstTs
    let last := dt.fromiso lastTs
    some
      { first_commit_date := first
        last_commit_date := last
        retention_period_days := dt.daysBetween first last
        total_commits := commits.length
        data_erasure_possible := false
        retention_justification := "No explicit data retention policy identified" }

/-- `_analyze_hash_permanence`: sample the first 100 commit hashes, flag a
collision when the sample has duplicates, report the character-level
entropy ratio of the concatenated sample, and always append the three
fixed architectural caveats. -/
def analyze_hash_permanence (commits : List CommitData) : HashAnalysis :=
  let base : HashAnalysis :=
    { total_hashes := commits.length
      hash_algorithm := "SHA-1"
      permanence_issues := []
      erasure_impossible := true
      sample_hashes := none
      hash_entropy := none }
  let withSample :=
    if commits.isEmpty then base
    else
      let sample := (commits.take 100).map (fun cd => cd.hash)
      let collision :=
        if (sample.eraseDups).length ≠ sample.length then ["Hash collision detected"] else []
      let combined := String.join sample
      let entropy : Rat :=
        if combined.isEmpty then 0
        else ((combined.toList.eraseDups).length : Rat) / (combined.length : Rat)
      { base with
          permanence_issues := collision
          sample_hashes := some sample
          hash_entropy := some entropy }
  { withSample with
      permanence_issues := withSample.permanence_issues ++
        ["Git hashes create permanent references to commit data",
         "Distributed nature prevents centralized data erasure",
         "Fork propagation multiplies data retention points"] }

/-- The fixed country-suffix table of `_detect_cross_border_transfers`. -/
def country_domains : List (String × String) :=
  [(".uk", "United Kingdom"), (".de", "Germany"), (".fr", "France"),
   (".it", "Italy"), (".es", "Spain"), (".nl", "Netherlands"),
   (".se", "Sweden"), (".dk", "Denmark"), (".no", "Norway"),
   (".fi", "Finland"), (".pl", "Poland"), (".cz", "Czech Republic"),
   (".at", "Austria"), (".ch", "Switzerland"), (".be", "Belgium"),
   (".ie", "Ireland"), (".pt", "Portugal"), (".gr", "Greece"),
   (".hu", "Hungary"), (".ro", "Romania"), (".bg", "Bulgaria"),
   (".hr", "Croatia"), (".si", "Slovenia"), (".sk", "Slovakia"),
   (".lt", "Lithuania"), (".lv", "Latvia"), (".ee", "Estonia"),
   (".lu", "Luxembourg"), (".mt", "Malta"), (".cy", "Cyprus")]

/-- The lower-cased domain of an email (`email.split('@')[1].lower()`). -/
def domainOf (email : String) : String :=
  ((email.splitOn "@").getD 1 "").toLower

/-- The distinct domains of the emails that contain an `@`. -/
def emailDomains (pd : PersonalData) : List String :=
  pd.emails.foldl
    (fun acc e => if e.contains '@' then insertIfAbsent (domainOf e) acc else acc)
    []

/-- The countries detected from the domains via the fixed suffix table. -/
def detectedCountries (pd : PersonalData) : List String :=
  (emailDomains pd).foldl
    (fun acc d =>
      country_domains.foldl
        (fun acc2 p => if d.endsWith p.1 then insertIfAbsent p.2 acc2 else acc2)
        acc)
    []

/-- The multi-country indicator emitted when two or more countries are
detected. -/
def multiCountryIndicator (countries : List String) : Indicator :=
  { type := "multi_country_contributors"
    description := "Contributors from " ++ toString countries.length ++
      " different countries detected"
    countries := some countries
    gdpr_implication := "Cross-border data transfer without explicit consent mechanism"
    legal_basis := none }

/-- The unconditional platform-transfer indicator. -/
def platformIndicator : Indicator :=
  { type := "platform_transfer"
    description := "Repository hosted on GitHub (US-based platform)"
    countries := none
    gdpr_implication := "EU personal data transferred to US without adequate safeguards"
    legal_basis := some "Unclear - no explicit consent for international transfer" }

/-- `_detect_cross_border_transfers`. -/
def detect_cross_border_transfers (pd : PersonalData) : List Indicator :=
  let detected := detectedCountries pd
  (if 1 < detected.length then [multiCountryIndicator detected] else [])
    ++ [platformIndicator]

/-- `scan_repository`: branch scan, history scan, personal-data extraction,
retention and hash analyses, cross-border detection, serialization (the
identity here). -/
def scan_repository (sc : GitScanner) (dt : DatetimeLib) (repo : Repo)
    (now : String) : ScanResults :=
  let branch_analysis := scan_branches sc repo
  let commit_data := scan_commit_history sc repo.commitStream
  let personal_data := extract_personal_data commit_data.commits
  { repository_path := sc.repository_path
    scan_timestamp := now
    total_commits := commit_data.total_count
    total_branches := branch_analysis.length
    personal_data := personal_data
    commit_analysis := commit_data.commits
    branch_analysis := branch_analysis
    data_retention := analyze_data_retention dt commit_data.commits
    cross_border_indicators := detect_cross_border_transfers personal_data
    hash_analysis := analyze_hash_permanence commit_data.commits }

/-! ## gdpr_analyser.py — data model -/

/-- A violation entry: article checks build dicts with a type, description,
article reference and severity tag; the unsupported-article stub instead
puts a plain string into the violations list. -/
inductive ViolationEntry where
  | v (vtype description article severity : String)
  | str (s : String)
deriving DecidableEq

/-- A per-article compliance result of the analyser (`title` and `details`
are absent on the unsupported-article stub). -/
structure ArticleResult where
  article : Nat
  title : Option String
  compliant : Bool
  violations : List ViolationEntry
  recommendations : List String
  severity_score : Nat
  details : List (String × Bool)

/-- The overall result dictionary of `analyze_compliance`. -/
structure ComplianceResults where
  analysis_timestamp : String
  articles_checked : List Nat
  overall_compliance : Bool
  violations : List ViolationEntry
  article_results : List (Nat × ArticleResult)
  recommendations : List String
  severity_score : Nat
  severity_level : String

namespace GDPRAnalyser

/-- The fixed `gdpr_articles` knowledge base: article number, title and
compliance-criteria names (the long description strings are prose data the
checks never read and are omitted). -/
def gdpr_articles : List (Nat × (String × List String)) :=
  [(6, ("Lawful basis for processing",
      ["explicit_consent", "contract_necessity", "legal_obligation",
       "vital_interests", "public_task", "legitimate_interests"])),
   (13, ("Information to be provided where personal data are collected from the data subject",
      ["controller_identity", "processing_purposes", "legal_basis",
       "recipients", "retention_period", "data_subject_rights"])),
   (14, ("Information to be provided where personal data have not been obtained from the data subject",
      ["controller_identity", "processing_purposes", "legal_basis",
       "data_categories", "recipients", "retention_period",
       "data_subject_rights", "data_source"])),
   (17, ("Right to erasure (right to be forgotten)",
      ["erasure_mechanism", "technical_feasibility",
       "third_party_notification", "exception_handling"])),
   (20, ("Right to data portability",
      ["structured_format", "machine_readable", "commonly_used",
       "transmission_capability"]))]

/-- The keys of the article knowledge base. -/
def gdpr_articles_keys : List Nat := gdpr_articles.map (fun p => p.1)

/-- The title stored for an article of the knowledge base. -/
def articleTitle (a : Nat) : String :=
  ((gdpr_articles.lookup a).map (fun p => p.1)).getD ""

/-- `_check_article_6_compliance`: a missing-lawful-basis violation when
any personal data is present, plus an unconditional no-consent-mechanism
violation. -/
def check_article_6_compliance (s : ScanResults) : ArticleResult :=
  let pd := s.personal_data
  let has_personal_data :=
    !pd.emails.isEmpty || !pd.authors.isEmpty || !pd.potential_pii.isEmpty
  let violations :=
    (if has_personal_data then
      [ViolationEntry.v "missing_lawful_basis"
        "No explicit lawful basis identified for processing personal data in Git commits"
        "6(1)" "high"]
     else [])
    ++ [ViolationEntry.v "no_consent_mechanism"
        "Git workflow lacks mechanism for obtaining explicit consent for data processing"
        "6(1)(a)" "medium"]
  let severity_score := (if has_personal_data then 8 else 0) + 5
  let recommendations :=
    if has_personal_data then
      ["Establish explicit lawful basis for processing contributor personal data",
       "Consider implementing contributor agreements that specify data processing purposes",
       "Document legitimate interests assessment if relying on Article 6(1)(f)",
       "Implement data minimization strategies for commit metadata"]
    else []
  { article := 6
    title := some (articleTitle 6)
    compliant := violations.isEmpty
    violations := violations
    recommendations := recommendations
    severity_score := severity_score
    details := [("personal_data_detected", has_personal_data),
                ("lawful_basis_documented", false),
                ("consent_mechanism_present", false)] }

/-- `_check_article_13_compliance`: a fixed violation set — Git always
collects data directly from contributors without the required notices. -/
def check_article_13_compliance (_s : ScanResults) : ArticleResult :=
  { article := 13
    title := some (articleTitle 13)
    compliant := false
    violations :=
      [ViolationEntry.v "missing_privacy_notice"
        "No privacy notice provided to contributors about data collection" "13(1)" "high",
       ViolationEntry.v "unclear_processing_purposes"
        "Processing purposes for contributor data not clearly communicated" "13(1)(c)" "medium",
       ViolationEntry.v "missing_retention_information"
        "No information provided about data retention periods" "13(2)(a)" "medium",
       ViolationEntry.v "missing_rights_information"
        "Contributors not informed of their data protection rights" "13(2)(b)" "medium"]
    recommendations :=
      ["Create comprehensive privacy notice for repository contributors",
       "Clearly communicate data processing purposes in contribution guidelines",
       "Inform contributors about data retention policies",
       "Provide clear information about data subject rights and how to exercise them",
       "Include privacy information in README.md or CONTRIBUTING.md files"]
    severity_score := 20
    details := [("privacy_notice_present", false),
                ("processing_purposes_clear", false),
                ("retention_period_specified", false),
                ("rights_information_provided", false)] }

/-- `_check_article_14_compliance`: violations only when cross-border
indicators are present in the scan results. -/
def check_article_14_compliance (s : ScanResults) : ArticleResult :=
  let cross_border := s.cross_border_indicators
  let violations :=
    if cross_border.isEmpty then []
    else
      [ViolationEntry.v "fork_data_collection"
        "Personal data collected through forks without informing original contributors"
        "14(1)" "high",
       ViolationEntry.v "missing_source_information"
        "Source of personal data not communicated to affected individuals"
        "14(2)(f)" "medium"]
  { article := 14
    title := some (articleTitle 14)
    compliant := violations.isEmpty
    violations := violations
    recommendations :=
      ["Implement notification mechanism for fork-based data collection",
       "Document data sources in repository metadata",
       "Provide clear information about how personal data propagates through forks"]
    severity_score := if cross_border.isEmpty then 0 else 12
    details := [("fork_data_collection_detected", !cross_border.isEmpty),
                ("source_information_provided", false),
                ("notification_mechanism_present", false)] }

/-- `_check_article_17_compliance`: a fixed result — erasure is assumed
architecturally impossible, so the article is always non-compliant with
severity score 25 regardless of the scan results. -/
def check_article_17_compliance (_s : ScanResults) : ArticleResult :=
  { article := 17
    title := some (articleTitle 17)
    compliant := false
    violations :=
      [ViolationEntry.v "erasure_impossible"
        "Git\x27s distributed architecture makes data erasure technically impossible"
        "17(1)" "critical",
       ViolationEntry.v "permanent_hash_references"
        "Git hashes create permanent, immutable references to personal data"
        "17(1)" "high",
       ViolationEntry.v "fork_propagation"
        "Personal data propagated across forks cannot be centrally erased"
        "17(2)" "critical"]
    recommendations :=
      ["Document technical impossibility of data erasure in privacy notices",
       "Implement data minimization strategies to reduce personal data exposure",
       "Consider using pseudonymization techniques for contributor identification",
       "Provide alternative mechanisms for data subject rights where erasure is impossible",
       "Implement .mailmap files to reduce email exposure"]
    severity_score := 25
    details := [("erasure_technically_possible", false),
                ("hash_permanence_issue", true),
                ("fork_propagation_prevents_erasure", true),
                ("alternative_mechanisms_available", false)] }

/-- `_check_article_20_compliance`: a fixed result — limited portability. -/
def check_article_20_compliance (_s : ScanResults) : ArticleResult :=
  { article := 20
    title := some (articleTitle 20)
    compliant := false
    violations :=
      [ViolationEntry.v "limited_portability"
        "Git format provides limited data portability for personal information"
        "20(1)" "medium",
       ViolationEntry.v "no_structured_export"
        "No mechanism to export personal data in structured, commonly used format"
        "20(1)" "medium"]
    recommendations :=
      ["Implement structured data export functionality for contributor information",
       "Provide JSON/CSV export options for personal data",
       "Document data portability limitations in privacy notices",
       "Consider implementing API for data subject access requests"]
    severity_score := 8
    details := [("structured_format_available", true),
                ("machine_readable", true),
                ("commonly_used_format", false),
                ("transmission_capability", true)] }

/-- `_check_article_compliance`: dispatch on the article number; anything
else gets the unsupported stub (no title, no details, a string violation). -/
def check_article_compliance (s : ScanResults) (article : Nat) : ArticleResult :=
  if article = 6 then check_article_6_compliance s
  else if article = 13 then check_article_13_compliance s
  else if article = 14 then check_article_14_compliance s
  else if article = 17 then check_article_17_compliance s
  else if article = 20 then check_article_20_compliance s
  else
    { article := article
      title := none
      compliant := false
      violations := [ViolationEntry.str ("Article " ++ toString article ++ " not supported")]
      recommendations := []
      severity_score := 0
      details := [] }

/-- `_calculate_severity_level`: the fixed thresholds. -/
def calculate_severity_level (severity_score : Nat) : String :=
  if 20 ≤ severity_score then "critical"
  else if 15 ≤ severity_score then "high"
  else if 10 ≤ severity_score then "medium"
  else if 5 ≤ severity_score then "low"
  else "minimal"

/-- The mutable accumulator of the `analyze_compliance` loop. -/
structure AnalysisState where
  overall_compliance : Bool
  violations : List ViolationEntry
  article_results : List (Nat × ArticleResult)
  recommendations : List String
  severity_score : Nat

/-- One iteration of the `analyze_compliance` loop: articles not in the
knowledge base are skipped entirely; for the others the per-article result
is stored, and on non-compliance the overall flag drops, the violations
extend and the severity contribution is added; recommendations extend
either way. -/
def analyzeStep (s : ScanResults) (st : AnalysisState) (article : Nat) : AnalysisState :=
  if article ∈ gdpr_articles_keys then
    let result := check_article_compliance s article
    let st1 := { st with article_results := updateAssoc article result st.article_results }
    let st2 :=
      if result.compliant then st1
      else
        { st1 with
            overall_compliance := false
            violations := st1.violations ++ result.violations
            severity_score := st1.severity_score + result.severity_score }
    { st2 with recommendations := st2.recommendations ++ result.recommendations }
  else st

/-- `analyze_compliance`: check the requested articles (default
`[6, 13, 14, 17, 20]`) and classify the summed severity. -/
def analyze_compliance (s : ScanResults) (articles : Option (List Nat))
    (now : String) : ComplianceResults :=
  let arts := articles.getD [6, 13, 14, 17, 20]
  let st := arts.foldl (analyzeStep s) ⟨true, [], [], [], 0⟩
  { analysis_timestamp := now
    articles_checked := arts
    overall_compliance := st.overall_compliance
    violations := st.violations
    article_results := st.article_results
    recommendations := st.recommendations
    severity_score := st.severity_score
    severity_level := calculate_severity_level st.severity_score }

end GDPRAnalyser

/-! ## compliance_checker.py — data model -/

/-- A quick-check result: the unsupported stub carries only the article,
`supported = false` and an error message; supported articles get the full
record (base values filled in, then overwritten by the article-specific
check via `result.update(...)`). -/
structure QuickResult where
  article : Nat
  supported : Bool
  error : Option String
  name : Option String
  compliant : Option Bool
  issues : List String
  recommendations : List String
  check_results : List (String × Bool)
  severity : Option String
  timestamp : Option String

/-- The dictionary an article-specific quick check returns, merged into
the base result by `result.update(...)`. -/
structure QuickUpdate where
  compliant : Bool
  issues : List String
  recommendations : List String
  check_results : List (String × Bool)
  severity : String

/-- The accumulating result of `check_all_articles` (the nested `summary`
dict is flattened into the three list fields). -/
structure AllResults where
  timestamp : String
  overall_compliant : Bool
  total_issues : Nat
  critical_issues : Nat
  article_results : List (Nat × QuickResult)
  compliant_articles : List Nat
  non_compliant_articles : List Nat
  critical_articles : List Nat

namespace ComplianceChecker

/-- The fixed `quick_checks` table: article number, display name and the
names of the individual checks. -/
def quick_checks : List (Nat × (String × List String)) :=
  [(6, ("Lawful Basis",
      ["has_privacy_policy", "documents_lawful_basis",
       "has_consent_mechanism", "legitimate_interests_assessment"])),
   (13, ("Transparency (Data from Subject)",
      ["privacy_notice_present", "processing_purposes_clear",
       "controller_identity_clear", "retention_period_specified",
       "rights_information_provided"])),
   (14, ("Transparency (Data Not from Subject)",
      ["third_party_data_notice", "data_source_documented",
       "processing_purposes_clear", "rights_information_provided"])),
   (17, ("Right to Erasure",
      ["erasure_mechanism_available", "technical_feasibility_documented",
       "exception_handling_defined", "third_party_notification_process"])),
   (20, ("Data Portability",
      ["structured_export_available", "machine_readable_format",
       "commonly_used_format", "automated_transmission"]))]

/-- The keys of the quick-check table. -/
def quick_checks_keys : List Nat := quick_checks.map (fun p => p.1)

/-- `_check_article_6_quick`.  Every individual check is the constant
`False` in the source, so each guarded `issues.append` fires; the issue and
recommendation lists are therefore fixed, and only the severity depends on
the scan results. -/
def check_article_6_quick (s : ScanResults) : QuickUpdate :=
  let pd := s.personal_data
  let has_personal_data := !pd.emails.isEmpty || !pd.authors.isEmpty
  let issues :=
    ["No privacy policy or data processing notice found",
     "No explicit lawful basis documented for processing personal data",
     "No mechanism for obtaining explicit consent",
     "No legitimate interests assessment documented"]
  let compliant := issues.isEmpty
  { compliant := compliant
    issues := issues
    recommendations :=
      ["Create a privacy policy documenting data processing activities",
       "Document the lawful basis for processing contributor data (e.g., legitimate interests)",
       "Implement contributor agreement or consent mechanism",
       "Conduct and document legitimate interests assessment if relying on Article 6(1)(f)"]
    check_results :=
      [("has_privacy_policy", false), ("documents_lawful_basis", false),
       ("has_consent_mechanism", false), ("legitimate_interests_assessment", false)]
    severity := if has_personal_data && !compliant then "high" else "medium" }

/-- `_check_article_13_quick`: all five checks are constant `False`, so the
result is fixed. -/
def check_article_13_quick (_s : ScanResults) : QuickUpdate :=
  let issues :=
    ["No privacy notice provided to contributors",
     "Processing purposes not clearly communicated",
     "Data controller identity not clearly specified",
     "Data retention period not specified",
     "Data subject rights not communicated"]
  { compliant := issues.isEmpty
    issues := issues
    recommendations :=
      ["Add privacy notice to README.md or CONTRIBUTING.md",
       "Clearly state why contributor data is collected and processed",
       "Identify the data controller in repository documentation",
       "Document how long contributor data will be retained",
       "Inform contributors of their data protection rights"]
    check_results :=
      [("privacy_notice_present", false), ("processing_purposes_clear", false),
       ("controller_identity_clear", false), ("retention_period_specified", false),
       ("rights_information_provided", false)]
    severity := "high" }

/-- `_check_article_14_quick`: the two fork-related issues fire only when
cross-border indicators are present; the last two issues always fire. -/
def check_article_14_quick (s : ScanResults) : QuickUpdate :=
  let has_forks := !s.cross_border_indicators.isEmpty
  let issues :=
    (if has_forks then ["No notice provided when collecting data through forks"] else [])
    ++ (if has_forks then ["Source of personal data not documented"] else [])
    ++ ["Processing purposes not clear for third-party collected data",
        "Data subject rights not communicated to affected individuals"]
  let recommendations :=
    (if has_forks then ["Implement notification mechanism for fork-based data collection"] else [])
    ++ (if has_forks then ["Document data sources in repository metadata"] else [])
    ++ ["Clarify purposes for processing data obtained through forks",
        "Provide mechanism to inform affected individuals of their rights"]
  { compliant := issues.isEmpty
    issues := issues
    recommendations := recommendations
    check_results :=
      [("third_party_data_notice", false), ("data_source_documented", false),
       ("processing_purposes_clear", false), ("rights_information_provided", false)]
    severity := if has_forks then "medium" else "low" }

/-- `_check_article_17_quick`: a fixed result — Git inherently cannot
comply with erasure requirements, so `compliant := false` and
`severity := "critical"` unconditionally. -/
def check_article_17_quick (_s : ScanResults) : QuickUpdate :=
  { compliant := false
    issues :=
      ["No data erasure mechanism available",
       "Technical feasibility of erasure not documented",
       "No process defined for handling erasure requests",
       "No process for notifying third parties (forks) about erasure requests"]
    recommendations :=
      ["Document technical impossibility of data erasure in Git",
       "Clearly document why data erasure is technically impossible",
       "Define process for responding to erasure requests with technical limitations",
       "Implement best-effort notification process for fork maintainers"]
    check_results :=
      [("erasure_mechanism_available", false), ("technical_feasibility_documented", false),
       ("exception_handling_defined", false), ("third_party_notification_process", false)]
    severity := "critical" }

/-- `_check_article_20_quick`: three of the four checks are constant
`False` (machine-readable is `True`), so three issues always fire. -/
def check_article_20_quick (_s : ScanResults) : QuickUpdate :=
  let issues :=
    ["No structured data export functionality available",
     "Data not available in commonly used format",
     "No automated data transmission capability"]
  { compliant := issues.isEmpty
    issues := issues
    recommendations :=
      ["Implement JSON/CSV export for contributor data",
       "Provide data export in standard formats (JSON, CSV, XML)",
       "Implement API for automated data portability requests"]
    check_results :=
      [("structured_export_available", false), ("machine_readable_format", true),
       ("commonly_used_format", false), ("automated_transmission", false)]
    severity := "medium" }

/-- `check_article_compliance`: an unsupported article yields the stub with
`supported = false` and an error message; a supported one yields the base
result overwritten by the article-specific quick check. -/
def check_article_compliance (s : ScanResults) (article : Nat) (now : String) :
    QuickResult :=
  match quick_checks.lookup article with
  | none =>
    { article := article
      supported := false
      error := some ("Article " ++ toString article ++ " not supported for quick checks")
      name := none
      compliant := none
      issues := []
      recommendations := []
      check_results := []
      severity := none
      timestamp := none }
  | some info =>
    let base : QuickResult :=
      { article := article
        supported := true
        error := none
        name := some info.1
        compliant := some false
        issues := []
        recommendations := []
        check_results := []
        severity := some "unknown"
        timestamp := some now }
    let upd : Option QuickUpdate :=
      if article = 6 then some (check_article_6_quick s)
      else if article = 13 then some (check_article_13_quick s)
      else if article = 14 then some (check_article_14_quick s)
      else if article = 17 then some (check_article_17_quick s)
      else if article = 20 then some (check_article_20_quick s)
      else none
    match upd with
    | none => base
    | some u =>
      { base with
          compliant := some u.compliant
          issues := u.issues
          recommendations := u.recommendations
          check_results := u.check_results
          severity := some u.severity }

/-- The mutable accumulator of the `check_all_articles` loop. -/
structure AllState where
  overall_compliant : Bool
  total_issues : Nat
  critical_issues : Nat
  article_results : List (Nat × QuickResult)
  compliant_articles : List Nat
  non_compliant_articles : List Nat
  critical_articles : List Nat

/-- One iteration of the `check_all_articles` loop. -/
def allStep (s : ScanResults) (now : String) (st : AllState) (a : Nat) : AllState :=
  let r := check_article_compliance s a now
  let st1 := { st with article_results := updateAssoc a r st.article_results }
  if r.compliant.getD false then
    { st1 with compliant_articles := st1.compliant_articles ++ [a] }
  else
    let st2 :=
      { st1 with
          overall_compliant := false
          non_compliant_articles := st1.non_compliant_articles ++ [a]
          total_issues := st1.total_issues + r.issues.length }
    if r.severity = some "critical" then
      { st2 with
          critical_issues := st2.critical_issues + r.issues.length
          critical_articles := st2.critical_articles ++ [a] }
    else st2

/-- `check_all_articles`: quick-check every supported article and fold the
per-article outcomes into the summary. -/
def check_all_articles (s : ScanResults) (now : String) : AllResults :=
  let st := quick_checks_keys.foldl (allStep s now) ⟨true, 0, 0, [], [], [], []⟩
  { timestamp := now
    overall_compliant := st.overall_compliant
    total_issues := st.total_issues
    critical_issues := st.critical_issues
    article_results := st.article_results
    compliant_articles := st.compliant_articles
    non_compliant_articles := st.non_compliant_articles
    critical_articles := st.critical_articles }

end ComplianceChecker

/-! ## Concrete instances used by witnesses and counterexamples -/

/-- A concrete scanner instance: dummy matcher functions standing in for
the compiled regexes (no claim depends on their semantics). -/
def sc0 : GitScanner :=
  { repository_path := "/tmp/repo"
    verbose := false
    email_pattern := fun _ => []
    personal_data_patterns :=
      [("phone", fun _ => []), ("credit_card", fun _ => []),
       ("ssn", fun _ => []), ("ip_address", fun _ => [])] }

/-- A concrete datetime-library stand-in. -/
def dt0 : DatetimeLib :=
  { fromiso := fun s => s
    daysBetween := fun _ _ => 0 }

/-- A concrete commit with no parents and an empty (successful) diff. -/
def c0 : Commit :=
  { hash := "aaaaaaaabbbbbbbb"
    author_name := "A"
    author_email := "a@x.de"
    author_timestamp := "2024-01-01T00:00:00"
    committer_name := "A"
    committer_email := "a@x.de"
    committer_timestamp := "2024-01-01T00:00:00"
    message := "fix bug"
    parents := []
    files_changed := 1
    insertions := 1
    deletions := 0
    diff := Except.ok [] }

/-- A concrete commit with a parent whose first-parent diff computation
raises. -/
def c0err : Commit :=
  { c0 with parents := ["p"], diff := Except.error () }

/-- A concrete empty repository: no branches, no commits. -/
def emptyRepo : Repo := { branches := [], commitStream := [] }

/-- The scan of the empty repository. -/
def emptyScan : ScanResults := scan_repository sc0 dt0 emptyRepo "T"

/-- A concrete single-commit repository. -/
def repo1 : Repo := { branches := [], commitStream := [CommitItem.ok c0] }

/-! ## Helper lemmas -/

theorem mem_insertIfAbsent {α : Type} [DecidableEq α] (x a : α) (l : List α) :
    x ∈ insertIfAbsent a l ↔ x = a ∨ x ∈ l := by
  unfold insertIfAbsent
  split
  · next h =>
    constructor
    · exact Or.inr
    · rintro (rfl | hx)
      · exact h
      · exact hx
  · simp [List.mem_append, or_comm]

theorem nodup_insertIfAbsent {α : Type} [DecidableEq α] (a : α) (l : List α)
    (h : l.Nodup) : (insertIfAbsent a l).Nodup := by
  unfold insertIfAbsent
  split
  · exact h
  · next ha => simp [List.nodup_append, h, ha]

theorem isEmpty_append_cons {α : Type} (l l2 : List α) (x : α) :
    (l ++ x :: l2).isEmpty = false := by
  cases l <;> rfl

theorem lookup_none_of_not_mem_keys {β : Type} (a : Nat) :
    ∀ l : List (Nat × β), a ∉ l.map Prod.fst → l.lookup a = none := by
  intro l
  induction l with
  | nil => intro _; rfl
  | cons p rest ih =>
    intro h
    simp only [List.map_cons, List.mem_cons] at h
    push_neg at h
    have hb : (a == p.1) = false := beq_eq_false_iff_ne.mpr h.1
    simp only [List.lookup, hb]
    exact ih h.2

/-! ## C1 -/

/-- C1: for every possible ScanResult, the Article-17 (right-to-erasure)
check of the analyser returns `compliant = false` with severity-score
contribution 25 and a leading critical-severity violation, and the quick
checker's Article-17 result is `compliant = false` with severity
`"critical"` — regardless of any evidence in the ScanResult. -/
theorem c1_article17_always_noncompliant (s : ScanResults) (now : String) :
    (GDPRAnalyser.check_article_17_compliance s).compliant = false
    ∧ (GDPRAnalyser.check_article_17_compliance s).severity_score = 25
    ∧ (GDPRAnalyser.check_article_17_compliance s).violations.head? =
        some (ViolationEntry.v "erasure_impossible"
          "Git\x27s distributed architecture makes data erasure technically impossible"
          "17(1)" "critical")
    ∧ (GDPRAnalyser.check_article_compliance s 17).compliant = false
    ∧ (ComplianceChecker.check_article_compliance s 17 now).compliant = some false
    ∧ (ComplianceChecker.check_article_compliance s 17 now).severity = some "critical" :=
  ⟨rfl, rfl, rfl, rfl, rfl, rfl⟩

/-! ## C2 -/

/-- C2 counterexample: scanning a concrete zero-commit empty repository
does produce empty personal-data sets and `total_commits = 0`, but the
cross-border indicator list contains the unconditional platform-transfer
indicator, so the Article-14 check on that ScanResult returns
`compliant = false` — the claim asserted `true`. -/
theorem c2_counterexample :
    emptyScan.personal_data = ⟨[], [], [], []⟩
    ∧ emptyScan.total_commits = 0
    ∧ emptyScan.cross_border_indicators = [platformIndicator]
    ∧ (GDPRAnalyser.check_article_14_compliance emptyScan).compliant = false :=
  ⟨rfl, rfl, rfl, rfl⟩

/-- C2 amended: for a zero-commit empty repository the scan produces a
ScanResult with all personal-data sets empty and `total_commits = 0`, but
its cross-border indicator list is the singleton unconditional
platform-transfer indicator, so evaluating the Article-14
(transparency-not-from-subject) check on that ScanResult returns
`compliant = false`. -/
theorem c2_amended_article14_noncompliant_on_empty_scan
    (sc : GitScanner) (dt : DatetimeLib) (now : String) :
    (scan_repository sc dt ⟨[], []⟩ now).personal_data = ⟨[], [], [], []⟩
    ∧ (scan_repository sc dt ⟨[], []⟩ now).total_commits = 0
    ∧ (scan_repository sc dt ⟨[], []⟩ now).cross_border_indicators = [platformIndicator]
    ∧ (GDPRAnalyser.check_article_14_compliance (scan_repository sc dt ⟨[], []⟩ now)).compliant
        = false :=
  ⟨rfl, rfl, rfl, rfl⟩

/-! ## C10 -/

theorem allStep_overall_false (s : ScanResults) (now : String)
    (st : ComplianceChecker.AllState) (a : Nat)
    (h : st.overall_compliant = false) :
    (ComplianceChecker.allStep s now st a).overall_compliant = false := by
  simp only [ComplianceChecker.allStep]
  split
  · exact h
  · split <;> rfl

theorem allStep_sets_false (s : ScanResults) (now : String)
    (st : ComplianceChecker.AllState) (a : Nat)
    (h : (ComplianceChecker.check_article_compliance s a now).compliant.getD false = false) :
    (ComplianceChecker.allStep s now st a).overall_compliant = false := by
  simp only [ComplianceChecker.allStep, h]
  split
  · next hcontra => exact absurd hcontra Bool.false_ne_true
  · split <;> rfl

theorem foldl_allStep_overall_false (s : ScanResults) (now : String) :
    ∀ (l : List Nat) (st : ComplianceChecker.AllState),
      st.overall_compliant = false →
      ((l.foldl (ComplianceChecker.allStep s now) st).overall_compliant = false) := by
  intro l
  induction l with
  | nil => intro st h; exact h
  | cons a rest ih =>
    intro st h
    rw [List.foldl_cons]
    exact ih _ (allStep_overall_false s now st a h)

/-- C10: for every scan-results input, `check_all_articles` returns
`overall_compliant = false`: the article set it iterates includes the
erasure article 17, whose quick check unconditionally returns
`compliant = false` (indeed already article 6 does), so no input yields an
overall-compliant verdict. -/
theorem c10_check_all_articles_never_compliant (s : ScanResults) (now : String) :
    (ComplianceChecker.check_all_articles s now).overall_compliant = false := by
  have h6 : (ComplianceChecker.check_article_compliance s 6 now).compliant.getD false
      = false := rfl
  show (([6, 13, 14, 17, 20] : List Nat).foldl (ComplianceChecker.allStep s now)
      ⟨true, 0, 0, [], [], [], []⟩).overall_compliant = false
  rw [List.foldl_cons]
  exact foldl_allStep_overall_false s now _ _ (allStep_sets_false s now _ 6 h6)

/-! ## C7 -/

theorem check_compliant_false_or_score_zero (s : ScanResults) (a : Nat) :
    (GDPRAnalyser.check_article_compliance s a).compliant = false
    ∨ (GDPRAnalyser.check_article_compliance s a).severity_score = 0 := by
  unfold GDPRAnalyser.check_article_compliance
  by_cases h6 : a = 6
  · subst h6
    left
    simp only [if_pos rfl, GDPRAnalyser.check_article_6_compliance]
    exact isEmpty_append_cons _ _ _
  · rw [if_neg h6]
    by_cases h13 : a = 13
    · subst h13; left; rfl
    · rw [if_neg h13]
      by_cases h14 : a = 14
      · subst h14
        simp only [if_pos rfl, GDPRAnalyser.check_article_14_compliance]
        by_cases hcb : s.cross_border_indicators.isEmpty
        · right; simp [hcb]
        · left; simp [hcb]
      · rw [if_neg h14]
        by_cases h17 : a = 17
        · subst h17; left; rfl
        · rw [if_neg h17]
          by_cases h20 : a = 20
          · subst h20; left; rfl
          · rw [if_neg h20]; right; rfl

theorem analyzeStep_severity (s : ScanResults) (st : GDPRAnalyser.AnalysisState) (a : Nat) :
    (GDPRAnalyser.analyzeStep s st a).severity_score
      = st.severity_score
        + (if a ∈ GDPRAnalyser.gdpr_articles_keys
           then (GDPRAnalyser.check_article_compliance s a).severity_score else 0) := by
  by_cases hmem : a ∈ GDPRAnalyser.gdpr_articles_keys
  · rw [if_pos hmem]
    simp only [GDPRAnalyser.analyzeStep, if_pos hmem]
    rcases check_compliant_false_or_score_zero s a with hc | hz
    · simp [hc]
    · cases hcpl : (GDPRAnalyser.check_article_compliance s a).compliant
      · simp [hcpl]
      · simp [hcpl, hz]
  · rw [if_neg hmem]
    simp [GDPRAnalyser.analyzeStep, hmem]

theorem foldl_analyzeStep_severity (s : ScanResults) :
    ∀ (arts : List Nat) (st : GDPRAnalyser.AnalysisState),
      (arts.foldl (GDPRAnalyser.analyzeStep s) st).severity_score
        = st.severity_score
          + ((arts.filter (fun a => a ∈ GDPRAnalyser.gdpr_articles_keys)).map
              (fun a => (GDPRAnalyser.check_article_compliance s a).severity_score)).sum := by
  intro arts
  induction arts with
  | nil => intro st; simp
  | cons a rest ih =>
    intro st
    rw [List.foldl_cons, ih]
    rw [analyzeStep_severity]
    by_cases hmem : a ∈ GDPRAnalyser.gdpr_articles_keys
    · rw [if_pos hmem, List.filter_cons_of_pos (by simpa using hmem)]
      simp [Nat.add_assoc, Nat.add_comm]
    · rw [if_neg hmem, List.filter_cons_of_neg (by simpa using hmem)]
      simp

theorem analyzeStep_overall_false (s : ScanResults)
    (st : GDPRAnalyser.AnalysisState) (a : Nat)
    (h : st.overall_compliance = false) :
    (GDPRAnalyser.analyzeStep s st a).overall_compliance = false := by
  simp only [GDPRAnalyser.analyzeStep]
  split
  · split
    · exact h
    · rfl
  · exact h

theorem foldl_analyzeStep_overall_false (s : ScanResults) :
    ∀ (l : List Nat) (st : GDPRAnalyser.AnalysisState),
      st.overall_compliance = false →
      (l.foldl (GDPRAnalyser.analyzeStep s) st).overall_compliance = false := by
  intro l
  induction l with
  | nil => intro st h; exact h
  | cons a rest ih =>
    intro st h
    rw [List.foldl_cons]
    exact ih _ (analyzeStep_overall_false s st a h)

theorem check_article_6_not_compliant (s : ScanResults) :
    (GDPRAnalyser.check_article_compliance s 6).compliant = false := by
  simp only [GDPRAnalyser.check_article_compliance, if_pos rfl,
    GDPRAnalyser.check_article_6_compliance]
  exact isEmpty_append_cons _ _ _

/-- C7: the total severity score of `analyze_compliance` is the sum of the
per-article severity contributions across the evaluated (supported)
articles, the severity level is classified from that sum by the fixed
thresholds of `calculate_severity_level`, and for the article set
`{6, 17, 20}` every ScanResult yields `overall_compliance = false` with
severity level `"critical"`, article 17's fixed contribution 25 alone
exceeding the critical threshold 20. -/
theorem c7_severity_sum_and_critical (s : ScanResults) (arts : List Nat) (now : String) :
    (GDPRAnalyser.analyze_compliance s (some arts) now).severity_score
      = ((arts.filter (fun a => a ∈ GDPRAnalyser.gdpr_articles_keys)).map
          (fun a => (GDPRAnalyser.check_article_compliance s a).severity_score)).sum
    ∧ (GDPRAnalyser.analyze_compliance s (some arts) now).severity_level
      = GDPRAnalyser.calculate_severity_level
          (GDPRAnalyser.analyze_compliance s (some arts) now).severity_score
    ∧ (GDPRAnalyser.analyze_compliance s (some [6, 17, 20]) now).overall_compliance = false
    ∧ (GDPRAnalyser.analyze_compliance s (some [6, 17, 20]) now).severity_level
      = "critical" := by
  refine ⟨?_, rfl, ?_, ?_⟩
  · show (arts.foldl (GDPRAnalyser.analyzeStep s) ⟨true, [], [], [], 0⟩).severity_score = _
    rw [foldl_analyzeStep_severity]
    simp
  · show (([6, 17, 20] : List Nat).foldl (GDPRAnalyser.analyzeStep s)
        ⟨true, [], [], [], 0⟩).overall_compliance = false
    rw [List.foldl_cons]
    apply foldl_analyzeStep_overall_false
    simp only [GDPRAnalyser.analyzeStep, if_pos (show (6 : Nat) ∈ GDPRAnalyser.gdpr_articles_keys by decide)]
    simp [check_article_6_not_compliant s]
  · show GDPRAnalyser.calculate_severity_level
        (([6, 17, 20] : List Nat).foldl (GDPRAnalyser.analyzeStep s)
          ⟨true, [], [], [], 0⟩).severity_score = "critical"
    rw [foldl_analyzeStep_severity]
    have h17 : (GDPRAnalyser.check_article_compliance s 17).severity_score = 25 := rfl
    have h20 : (GDPRAnalyser.check_article_compliance s 20).severity_score = 8 := rfl
    have hfilter : (([6, 17, 20] : List Nat).filter
        (fun a => a ∈ GDPRAnalyser.gdpr_articles_keys)) = [6, 17, 20] := by decide
    rw [hfilter]
    simp only [List.map_cons, List.map_nil, List.sum_cons, List.sum_nil, h17, h20]
    unfold GDPRAnalyser.calculate_severity_level
    rw [if_pos (by omega)]

/-! ## C8 -/

/-- C8 counterexample: the analyser's batch evaluation of the article list
`[99, 17]` on a concrete ScanResult produces no result entry at all for
the unsupported article 99 — contrary to the claim that a stub entry
marking it unsupported is produced — while article 17 is evaluated
normally. -/
theorem c8_counterexample :
    ((GDPRAnalyser.analyze_compliance emptyScan (some [99, 17]) "T").article_results.lookup 99
      = none)
    ∧ ((GDPRAnalyser.analyze_compliance emptyScan (some [99, 17]) "T").article_results.lookup 17).isSome
      = true :=
  ⟨rfl, rfl⟩

/-- C8 amended: a requested article identifier not in the fixed rule table
does not abort evaluation, but only the quick checker's single-article
entry point (and the analyser's internal dispatcher) produce a stub
marking the article unsupported; the analyser's batch evaluation silently
skips the article, producing no result entry for it, and evaluates the
remaining requested articles exactly as it would without it. -/
theorem c8_amended_unsupported_skipped_not_stubbed
    (s : ScanResults) (a : Nat) (rest : List Nat) (now : String)
    (h : a ∉ GDPRAnalyser.gdpr_articles_keys)
    (hq : a ∉ ComplianceChecker.quick_checks_keys) :
    (ComplianceChecker.check_article_compliance s a now).supported = false
    ∧ (ComplianceChecker.check_article_compliance s a now).error
        = some ("Article " ++ toString a ++ " not supported for quick checks")
    ∧ (GDPRAnalyser.check_article_compliance s a).compliant = false
    ∧ (GDPRAnalyser.check_article_compliance s a).violations
        = [ViolationEntry.str ("Article " ++ toString a ++ " not supported")]
    ∧ (GDPRAnalyser.analyze_compliance s (some (a :: rest)) now).article_results
        = (GDPRAnalyser.analyze_compliance s (some rest) now).article_results
    ∧ (GDPRAnalyser.analyze_compliance s (some (a :: rest)) now).overall_compliance
        = (GDPRAnalyser.analyze_compliance s (some rest) now).overall_compliance
    ∧ (GDPRAnalyser.analyze_compliance s (some (a :: rest)) now).severity_score
        = (GDPRAnalyser.analyze_compliance s (some rest) now).severity_score := by
  have hne : a ≠ 6 ∧ a ≠ 13 ∧ a ≠ 14 ∧ a ≠ 17 ∧ a ≠ 20 := by
    simpa [GDPRAnalyser.gdpr_articles_keys, GDPRAnalyser.gdpr_articles] using h
  have hlook : ComplianceChecker.quick_checks.lookup a = none :=
    lookup_none_of_not_mem_keys a ComplianceChecker.quick_checks hq
  have hskip : GDPRAnalyser.analyzeStep s ⟨true, [], [], [], 0⟩ a = ⟨true, [], [], [], 0⟩ := by
    simp [GDPRAnalyser.analyzeStep, h]
  refine ⟨?_, ?_, ?_, ?_, ?_, ?_, ?_⟩
  · simp [ComplianceChecker.check_article_compliance, hlook]
  · simp [ComplianceChecker.check_article_compliance, hlook]
  · simp [GDPRAnalyser.check_article_compliance, hne.1, hne.2.1, hne.2.2.1,
      hne.2.2.2.1, hne.2.2.2.2]
  · simp [GDPRAnalyser.check_article_compliance, hne.1, hne.2.1, hne.2.2.1,
      hne.2.2.2.1, hne.2.2.2.2]
  · show ((a :: rest).foldl (GDPRAnalyser.analyzeStep s) ⟨true, [], [], [], 0⟩).article_results
      = (rest.foldl (GDPRAnalyser.analyzeStep s) ⟨true, [], [], [], 0⟩).article_results
    rw [List.foldl_cons, hskip]
  · show ((a :: rest).foldl (GDPRAnalyser.analyzeStep s) ⟨true, [], [], [], 0⟩).overall_compliance
      = (rest.foldl (GDPRAnalyser.analyzeStep s) ⟨true, [], [], [], 0⟩).overall_compliance
    rw [List.foldl_cons, hskip]
  · show ((a :: rest).foldl (GDPRAnalyser.analyzeStep s) ⟨true, [], [], [], 0⟩).severity_score
      = (rest.foldl (GDPRAnalyser.analyzeStep s) ⟨true, [], [], [], 0⟩).severity_score
    rw [List.foldl_cons, hskip]

/-- C8 witness: the amended claim applied at article 99 with remainder
`[17]` on the concrete empty-repository scan. -/
theorem c8_amended_witness :
    ((99 : Nat) ∉ GDPRAnalyser.gdpr_articles_keys
      ∧ (99 : Nat) ∉ ComplianceChecker.quick_checks_keys)
    ∧ ((ComplianceChecker.check_article_compliance emptyScan 99 "T").supported = false
       ∧ (ComplianceChecker.check_article_compliance emptyScan 99 "T").error
           = some ("Article " ++ toString (99 : Nat) ++ " not supported for quick checks")
       ∧ (GDPRAnalyser.check_article_compliance emptyScan 99).compliant = false
       ∧ (GDPRAnalyser.check_article_compliance emptyScan 99).violations
           = [ViolationEntry.str ("Article " ++ toString (99 : Nat) ++ " not supported")]
       ∧ (GDPRAnalyser.analyze_compliance emptyScan (some (99 :: [17])) "T").article_results
           = (GDPRAnalyser.analyze_compliance emptyScan (some [17]) "T").article_results
       ∧ (GDPRAnalyser.analyze_compliance emptyScan (some (99 :: [17])) "T").overall_compliance
           = (GDPRAnalyser.analyze_compliance emptyScan (some [17]) "T").overall_compliance
       ∧ (GDPRAnalyser.analyze_compliance emptyScan (some (99 :: [17])) "T").severity_score
           = (GDPRAnalyser.analyze_compliance emptyScan (some [17]) "T").severity_score) :=
  ⟨⟨by decide, by decide⟩,
   c8_amended_unsupported_skipped_not_stubbed emptyScan 99 [17] "T" (by decide) (by decide)⟩

/-! ## C3 / C4 — the history walker -/

/-- Closed form of the walker loop on an error-free stream: it yields the
records of the first `10000 - n` commits and counts
`min (length) (10000 - n)` of them. -/
theorem scanGo_map_ok (sc : GitScanner) :
    ∀ (cs : List Commit) (acc : List CommitData) (n : Nat), n < 10000 →
      scanGo sc (cs.map CommitItem.ok) acc n
        = ⟨acc.reverse ++ (cs.take (10000 - n)).map (commitDataOf sc),
           n + min cs.length (10000 - n)⟩ := by
  intro cs
  induction cs with
  | nil =>
    intro acc n hn
    simp [scanGo]
  | cons c rest ih =>
    intro acc n hn
    simp only [List.map_cons, scanGo]
    by_cases hcap : 10000 ≤ n + 1
    · rw [if_pos hcap]
      have h1 : 10000 - n = 1 := by omega
      rw [h1]
      simp only [ScanHist.mk.injEq, List.take_succ_cons, List.take_zero,
        List.map_cons, List.map_nil, List.reverse_cons, List.length_cons]
      exact ⟨trivial, by omega⟩
    · rw [if_neg hcap]
      rw [ih (commitDataOf sc c :: acc) (n + 1) (by omega)]
      have h2 : 10000 - n = (10000 - (n + 1)) + 1 := by omega
      rw [h2]
      simp only [ScanHist.mk.injEq, List.take_succ_cons, List.map_cons,
        List.reverse_cons, List.append_assoc, List.singleton_append,
        List.length_cons]
      exact ⟨trivial, by omega⟩

/-- `_scan_commit_history` on an error-free stream: the first 10,000
records, counted `min (length) 10000`. -/
theorem scan_commit_history_ok (sc : GitScanner) (cs : List Commit) :
    scan_commit_history sc (cs.map CommitItem.ok)
      = ⟨(cs.take 10000).map (commitDataOf sc), min cs.length 10000⟩ := by
  unfold scan_commit_history
  rw [scanGo_map_ok sc cs [] 0 (by norm_num)]
  simp only [Nat.sub_zero, List.reverse_nil, List.nil_append, Nat.zero_add]

/-- Closed form of the walker loop when building the record of the commit
after `pre` raises: the commit is counted but not appended, and the loop
stops. -/
theorem scanGo_procFail (sc : GitScanner) (c : Commit) (rest : List CommitItem) :
    ∀ (pre : List Commit) (acc : List CommitData) (n : Nat),
      n + pre.length < 10000 →
      scanGo sc (pre.map CommitItem.ok ++ CommitItem.procFail c :: rest) acc n
        = ⟨acc.reverse ++ pre.map (commitDataOf sc), n + pre.length + 1⟩ := by
  intro pre
  induction pre with
  | nil =>
    intro acc n hn
    simp [scanGo]
  | cons p ps ih =>
    intro acc n hn
    simp only [List.length_cons] at hn
    simp only [List.map_cons, List.cons_append, scanGo, List.append_eq]
    rw [if_neg (by omega)]
    rw [ih (commitDataOf sc p :: acc) (n + 1) (by omega)]
    simp only [ScanHist.mk.injEq, List.map_cons, List.reverse_cons,
      List.append_assoc, List.singleton_append, List.length_cons]
    exact ⟨trivial, by omega⟩

/-- C3 counterexample: a repository whose history holds 10,001 commits
scans to exactly the same ScanResult as one holding only the first 10,000
— the walker does stop at the cap (`total_count = 10000`), but nothing in
the ScanResult records that the scan was truncated, so no caller can tell
the truncated scan from a complete scan of exactly 10,000 commits. -/
theorem c3_counterexample :
    scan_repository sc0 dt0 ⟨[], (List.replicate 10001 c0).map CommitItem.ok⟩ "T"
      = scan_repository sc0 dt0 ⟨[], (List.replicate 10000 c0).map CommitItem.ok⟩ "T"
    ∧ (scan_commit_history sc0 ((List.replicate 10001 c0).map CommitItem.ok)).total_count
      = 10000 := by
  have e1 : scan_commit_history sc0 ((List.replicate 10001 c0).map CommitItem.ok)
      = ⟨(List.replicate 10000 c0).map (commitDataOf sc0), 10000⟩ := by
    rw [scan_commit_history_ok]
    rw [List.take_replicate, List.length_replicate]
    rw [show min 10000 10001 = 10000 from by omega,
      show min 10001 10000 = 10000 from by omega]
  have e2 : scan_commit_history sc0 ((List.replicate 10000 c0).map CommitItem.ok)
      = ⟨(List.replicate 10000 c0).map (commitDataOf sc0), 10000⟩ := by
    rw [scan_commit_history_ok]
    rw [List.take_replicate, List.length_replicate]
    rw [show min 10000 10000 = 10000 from by omega]
  have hb1 : scan_branches sc0 ⟨[], (List.replicate 10001 c0).map CommitItem.ok⟩ = [] := rfl
  have hb2 : scan_branches sc0 ⟨[], (List.replicate 10000 c0).map CommitItem.ok⟩ = [] := rfl
  constructor
  · simp only [scan_repository]
    rw [e1, e2, hb1, hb2]
  · rw [e1]

/-- C3 amended: the walker does stop early at the hard cap of 10,000
commits (exactly 10,000 records are yielded and counted), but the
resulting ScanResult does not record that the scan was truncated: it
equals the scan of the history truncated to its first 10,000 commits, so
callers cannot tell the scan is incomplete. -/
theorem c3_amended_cap_stops_early_but_unrecorded (sc : GitScanner)
    (cs : List Commit) (h : 10000 ≤ cs.length) :
    (scan_commit_history sc (cs.map CommitItem.ok)).commits.length = 10000
    ∧ (scan_commit_history sc (cs.map CommitItem.ok)).total_count = 10000
    ∧ scan_commit_history sc (cs.map CommitItem.ok)
        = scan_commit_history sc ((cs.take 10000).map CommitItem.ok) := by
  rw [scan_commit_history_ok sc cs, scan_commit_history_ok sc (cs.take 10000)]
  rw [List.take_take, Nat.min_self, List.length_take]
  rw [show min cs.length 10000 = 10000 from by omega,
    show min (min 10000 cs.length) 10000 = 10000 from by omega]
  refine ⟨?_, rfl, rfl⟩
  rw [List.length_map, List.length_take]
  omega

/-- C3 witness: the amended claim applied to a concrete 10,001-commit
history. -/
theorem c3_amended_witness :
    10000 ≤ (List.replicate 10001 c0).length
    ∧ ((scan_commit_history sc0 ((List.replicate 10001 c0).map CommitItem.ok)).commits.length
        = 10000
      ∧ (scan_commit_history sc0 ((List.replicate 10001 c0).map CommitItem.ok)).total_count
        = 10000
      ∧ scan_commit_history sc0 ((List.replicate 10001 c0).map CommitItem.ok)
        = scan_commit_history sc0 (((List.replicate 10001 c0).take 10000).map CommitItem.ok)) :=
  ⟨by rw [List.length_replicate]; omega,
   c3_amended_cap_stops_early_but_unrecorded sc0 (List.replicate 10001 c0)
     (by rw [List.length_replicate]; omega)⟩

/-- C4 counterexample: when building the second commit record raises
(after the commit was already counted), the walker returns
`total_count = 2` but only one commit record — the reported total does not
equal the length of the commit-analysis list. -/
theorem c4_counterexample :
    (scan_commit_history sc0 [CommitItem.ok c0, CommitItem.procFail c0]).total_count = 2
    ∧ (scan_commit_history sc0 [CommitItem.ok c0, CommitItem.procFail c0]).commits.length
      = 1 :=
  ⟨rfl, rfl⟩

/-- C4 amended: when iteration completes without error the reported total
equals the number of records actually yielded, and both equal the history
length capped at 10,000; but when building a record raises partway
through, the commit is counted without being yielded, so the total
exceeds the length of the commit-analysis list by one. -/
theorem c4_amended_total_matches_yield_without_errors (sc : GitScanner)
    (cs pre : List Commit) (c : Commit) (rest : List CommitItem)
    (h : pre.length < 10000) :
    ((scan_commit_history sc (cs.map CommitItem.ok)).total_count
        = (scan_commit_history sc (cs.map CommitItem.ok)).commits.length
      ∧ (scan_commit_history sc (cs.map CommitItem.ok)).total_count = min cs.length 10000)
    ∧ ((scan_commit_history sc
          (pre.map CommitItem.ok ++ CommitItem.procFail c :: rest)).total_count
        = pre.length + 1
      ∧ (scan_commit_history sc
          (pre.map CommitItem.ok ++ CommitItem.procFail c :: rest)).commits.length
        = pre.length) := by
  constructor
  · rw [scan_commit_history_ok sc cs]
    dsimp only
    refine ⟨?_, rfl⟩
    rw [List.length_map, List.length_take]
    omega
  · unfold scan_commit_history
    rw [scanGo_procFail sc c rest pre [] 0 (by omega)]
    dsimp only
    refine ⟨by omega, ?_⟩
    rw [List.reverse_nil, List.nil_append, List.length_map]

/-- C4 witness: the amended claim applied to a concrete one-commit
error-free history and a concrete history whose first record build
raises. -/
theorem c4_amended_witness :
    ([] : List Commit).length < 10000
    ∧ (((scan_commit_history sc0 ([c0].map CommitItem.ok)).total_count
          = (scan_commit_history sc0 ([c0].map CommitItem.ok)).commits.length
        ∧ (scan_commit_history sc0 ([c0].map CommitItem.ok)).total_count
          = min ([c0] : List Commit).length 10000)
      ∧ ((scan_commit_history sc0
            (([] : List Commit).map CommitItem.ok ++ CommitItem.procFail c0 :: [])).total_count
          = ([] : List Commit).length + 1
        ∧ (scan_commit_history sc0
            (([] : List Commit).map CommitItem.ok ++ CommitItem.procFail c0 :: [])).commits.length
          = ([] : List Commit).length)) :=
  ⟨by decide, c4_amended_total_matches_yield_without_errors sc0 [c0] [] c0 [] (by decide)⟩

/-! ## C5 -/

/-- C5: for every commit whose first-parent diff computation fails, the
per-commit inspection still returns a findings record containing exactly
what was extracted from the commit message (emails and sensitive
patterns), diff-derived findings (`potential_pii`) are absent, and the
commit is still counted and its record yielded by the history walk — the
failure does not abort the scan. -/
theorem c5_diff_failure_is_soft (sc : GitScanner) (c : Commit)
    (hp : c.parents ≠ []) (hd : c.diff = Except.error ()) :
    check_commit_for_pii sc c
      = ⟨sc.email_pattern c.message, [], messagePatternFindings sc c.message⟩
    ∧ (scan_commit_history sc [CommitItem.ok c]).total_count = 1
    ∧ (scan_commit_history sc [CommitItem.ok c]).commits = [commitDataOf sc c] := by
  refine ⟨?_, rfl, rfl⟩
  rcases hps : c.parents with _ | ⟨p, ps⟩
  · exact absurd hps hp
  · simp [check_commit_for_pii, hps, hd]

/-- C5 witness: the soft-failure property applied to a concrete commit
with a parent and a raising diff, under a concrete scanner. -/
theorem c5_witness :
    (c0err.parents ≠ [] ∧ c0err.diff = Except.error ())
    ∧ (check_commit_for_pii sc0 c0err
         = ⟨sc0.email_pattern c0err.message, [], messagePatternFindings sc0 c0err.message⟩
       ∧ (scan_commit_history sc0 [CommitItem.ok c0err]).total_count = 1
       ∧ (scan_commit_history sc0 [CommitItem.ok c0err]).commits = [commitDataOf sc0 c0err]) :=
  ⟨⟨by decide, rfl⟩, c5_diff_failure_is_soft sc0 c0err (by decide) rfl⟩

/-! ## C6 -/

theorem mem_emailDomains_fold (d : String) :
    ∀ (es : List String) (init : List String),
      (d ∈ es.foldl
          (fun acc e => if e.contains '@' then insertIfAbsent (domainOf e) acc else acc) init
        ↔ d ∈ init ∨ ∃ e ∈ es, e.contains '@' = true ∧ d = domainOf e) := by
  intro es
  induction es with
  | nil => intro init; simp
  | cons e es ih =>
    intro init
    rw [List.foldl_cons]
    by_cases hc : e.contains '@'
    · rw [if_pos hc, ih, mem_insertIfAbsent]
      constructor
      · rintro ((rfl | hx) | ⟨x, hxes, hcx, rfl⟩)
        · exact Or.inr ⟨e, List.mem_cons_self e es, hc, rfl⟩
        · exact Or.inl hx
        · exact Or.inr ⟨x, List.mem_cons_of_mem e hxes, hcx, rfl⟩
      · rintro (hx | ⟨x, hxes, hcx, rfl⟩)
        · exact Or.inl (Or.inr hx)
        · rcases List.mem_cons.mp hxes with rfl | hxes2
          · exact Or.inl (Or.inl rfl)
          · exact Or.inr ⟨x, hxes2, hcx, rfl⟩
    · rw [if_neg hc, ih]
      constructor
      · rintro (hx | ⟨x, hxes, hcx, rfl⟩)
        · exact Or.inl hx
        · exact Or.inr ⟨x, List.mem_cons_of_mem e hxes, hcx, rfl⟩
      · rintro (hx | ⟨x, hxes, hcx, rfl⟩)
        · exact Or.inl hx
        · rcases List.mem_cons.mp hxes with rfl | hxes2
          · exact absurd hcx hc
          · exact Or.inr ⟨x, hxes2, hcx, rfl⟩

/-- Membership in the distinct-domain set built by
`_detect_cross_border_transfers`. -/
theorem mem_emailDomains (pd : PersonalData) (d : String) :
    d ∈ emailDomains pd
      ↔ ∃ e ∈ pd.emails, e.contains '@' = true ∧ d = domainOf e := by
  unfold emailDomains
  rw [mem_emailDomains_fold]
  simp

theorem mem_countryFold (d co : String) :
    ∀ (table : List (String × String)) (init : List String),
      (co ∈ table.foldl
          (fun acc2 p => if d.endsWith p.1 then insertIfAbsent p.2 acc2 else acc2) init
        ↔ co ∈ init ∨ ∃ p ∈ table, d.endsWith p.1 = true ∧ p.2 = co) := by
  intro table
  induction table with
  | nil => intro init; simp
  | cons p ps ih =>
    intro init
    rw [List.foldl_cons]
    by_cases he : d.endsWith p.1
    · rw [if_pos he, ih, mem_insertIfAbsent]
      constructor
      · rintro ((rfl | hx) | ⟨q, hq, heq, rfl⟩)
        · exact Or.inr ⟨p, List.mem_cons_self p ps, he, rfl⟩
        · exact Or.inl hx
        · exact Or.inr ⟨q, List.mem_cons_of_mem p hq, heq, rfl⟩
      · rintro (hx | ⟨q, hq, heq, rfl⟩)
        · exact Or.inl (Or.inr hx)
        · rcases List.mem_cons.mp hq with rfl | hq2
          · exact Or.inl (Or.inl rfl)
          · exact Or.inr ⟨q, hq2, heq, rfl⟩
    · rw [if_neg he, ih]
      constructor
      · rintro (hx | ⟨q, hq, heq, rfl⟩)
        · exact Or.inl hx
        · exact Or.inr ⟨q, List.mem_cons_of_mem p hq, heq, rfl⟩
      · rintro (hx | ⟨q, hq, heq, rfl⟩)
        · exact Or.inl hx
        · rcases List.mem_cons.mp hq with rfl | hq2
          · exact absurd heq he
          · exact Or.inr ⟨q, hq2, heq, rfl⟩

/-- Membership in the detected-country set: a country is detected exactly
when some distinct email domain ends with its suffix in the fixed table. -/
theorem mem_detectedCountries (pd : PersonalData) (co : String) :
    co ∈ detectedCountries pd
      ↔ ∃ d ∈ emailDomains pd, ∃ p ∈ country_domains,
          d.endsWith p.1 = true ∧ p.2 = co := by
  unfold detectedCountries
  suffices h : ∀ (ds : List String) (init : List String),
      (co ∈ ds.foldl
          (fun acc d => country_domains.foldl
            (fun acc2 p => if d.endsWith p.1 then insertIfAbsent p.2 acc2 else acc2) acc) init
        ↔ co ∈ init
          ∨ ∃ d ∈ ds, ∃ p ∈ country_domains, d.endsWith p.1 = true ∧ p.2 = co) by
    simpa using h (emailDomains pd) []
  intro ds
  induction ds with
  | nil => intro init; simp
  | cons d0 ds ih =>
    intro init
    rw [List.foldl_cons, ih, mem_countryFold d0 co country_domains init]
    constructor
    · rintro ((hx | ⟨q, hq, heq, rfl⟩) | ⟨d, hd, q, hq, heq, rfl⟩)
      · exact Or.inl hx
      · exact Or.inr ⟨d0, List.mem_cons_self d0 ds, q, hq, heq, rfl⟩
      · exact Or.inr ⟨d, List.mem_cons_of_mem d0 hd, q, hq, heq, rfl⟩
    · rintro (hx | ⟨d, hd, q, hq, heq, rfl⟩)
      · exact Or.inl (Or.inl hx)
      · rcases List.mem_cons.mp hd with rfl | hd2
        · exact Or.inl (Or.inr ⟨q, hq, heq, rfl⟩)
        · exact Or.inr ⟨d, hd2, q, hq, heq, rfl⟩

/-- C6: cross-border detection maps each distinct email domain to a
country via the fixed suffix table; the multi-country indicator is emitted
if and only if two or more distinct countries are detected; and exactly
one fixed platform-transfer indicator is always appended last,
unconditionally. -/
theorem c6_cross_border_indicators (pd : PersonalData) :
    (detect_cross_border_transfers pd).getLast? = some platformIndicator
    ∧ ((detect_cross_border_transfers pd).filter
        (fun i => i.type == "platform_transfer")).length = 1
    ∧ ((∃ i ∈ detect_cross_border_transfers pd,
          i.type = "multi_country_contributors")
        ↔ 2 ≤ (detectedCountries pd).length)
    ∧ (∀ co, co ∈ detectedCountries pd
        ↔ ∃ d ∈ emailDomains pd, ∃ p ∈ country_domains,
            d.endsWith p.1 = true ∧ p.2 = co)
    ∧ (∀ d, d ∈ emailDomains pd
        ↔ ∃ e ∈ pd.emails, e.contains '@' = true ∧ d = domainOf e) := by
  refine ⟨?_, ?_, ?_, mem_detectedCountries pd, mem_emailDomains pd⟩
  · unfold detect_cross_border_transfers
    exact List.getLast?_concat _
  · simp only [detect_cross_border_transfers]
    by_cases h2 : 1 < (detectedCountries pd).length
    · rw [if_pos h2]
      rfl
    · rw [if_neg h2]
      rfl
  · by_cases h2 : 1 < (detectedCountries pd).length
    · constructor
      · intro _; omega
      · intro _
        refine ⟨multiCountryIndicator (detectedCountries pd), ?_, rfl⟩
        simp only [detect_cross_border_transfers]
        rw [if_pos h2]
        exact List.mem_cons_self _ _
    · constructor
      · rintro ⟨i, hi, hty⟩
        simp only [detect_cross_border_transfers] at hi
        rw [if_neg h2] at hi
        simp only [List.nil_append, List.mem_singleton] at hi
        subst hi
        exact absurd hty (by decide)
      · intro hge
        exact absurd hge (by omega)

/-! ## C9 -/

theorem nodup_foldl_insertIfAbsent :
    ∀ (l : List String) (init : List String), init.Nodup →
      (l.foldl (fun s e => insertIfAbsent e s) init).Nodup := by
  intro l
  induction l with
  | nil => intro init h; exact h
  | cons e es ih =>
    intro init h
    rw [List.foldl_cons]
    exact ih _ (nodup_insertIfAbsent e init h)

theorem extractStep_authors_eq (pd : PersonalData) (cd : CommitData) :
    (extractStep pd cd).authors = insertIfAbsent (authorStr cd) pd.authors := rfl

theorem extractStep_nodup (pd : PersonalData) (cd : CommitData)
    (ha : pd.authors.Nodup) (hc : pd.committers.Nodup) (he : pd.emails.Nodup) :
    (extractStep pd cd).authors.Nodup ∧ (extractStep pd cd).committers.Nodup
      ∧ (extractStep pd cd).emails.Nodup := by
  refine ⟨nodup_insertIfAbsent _ _ ha, nodup_insertIfAbsent _ _ hc, ?_⟩
  show (if cd.personal_data_found.emails.isEmpty then pd.emails
        else cd.personal_data_found.emails.foldl (fun s e => insertIfAbsent e s) pd.emails).Nodup
  split
  · exact he
  · exact nodup_foldl_insertIfAbsent _ _ he

theorem extract_fold_nodup :
    ∀ (commits : List CommitData) (pd : PersonalData),
      pd.authors.Nodup → pd.committers.Nodup → pd.emails.Nodup →
      ((commits.foldl extractStep pd).authors.Nodup
        ∧ (commits.foldl extractStep pd).committers.Nodup
        ∧ (commits.foldl extractStep pd).emails.Nodup) := by
  intro commits
  induction commits with
  | nil => intro pd ha hc he; exact ⟨ha, hc, he⟩
  | cons cd rest ih =>
    intro pd ha hc he
    rw [List.foldl_cons]
    obtain ⟨h1, h2, h3⟩ := extractStep_nodup pd cd ha hc he
    exact ih _ h1 h2 h3

theorem mem_authors_foldl_superset :
    ∀ (commits : List CommitData) (pd : PersonalData) (a : String),
      a ∈ pd.authors → a ∈ (commits.foldl extractStep pd).authors := by
  intro commits
  induction commits with
  | nil => intro pd a h; exact h
  | cons cd rest ih =>
    intro pd a h
    rw [List.foldl_cons]
    apply ih
    rw [extractStep_authors_eq, mem_insertIfAbsent]
    exact Or.inr h

theorem mem_authors_extract :
    ∀ (commits : List CommitData) (pd : PersonalData) (cd : CommitData),
      cd ∈ commits → authorStr cd ∈ (commits.foldl extractStep pd).authors := by
  intro commits
  induction commits with
  | nil => intro pd cd h; exact absurd h (List.not_mem_nil cd)
  | cons c1 rest ih =>
    intro pd cd h
    rw [List.foldl_cons]
    rcases List.mem_cons.mp h with rfl | h2
    · apply mem_authors_foldl_superset
      rw [extractStep_authors_eq, mem_insertIfAbsent]
      exact Or.inl rfl
    · exact ih _ cd h2

/-- C9: in every returned ScanResult the `authors`, `committers` and
`emails` collections are deduplicated at the set level (no duplicates),
and for any commit of the scanned history the authors collection contains
exactly one entry for its author identity string — so any two commits
sharing an identical author string contribute a single entry. -/
theorem c9_scanresult_dedup (sc : GitScanner) (dt : DatetimeLib) (repo : Repo)
    (now : String) :
    (scan_repository sc dt repo now).personal_data.authors.Nodup
    ∧ (scan_repository sc dt repo now).personal_data.committers.Nodup
    ∧ (scan_repository sc dt repo now).personal_data.emails.Nodup
    ∧ ∀ cd ∈ (scan_repository sc dt repo now).commit_analysis,
        (scan_repository sc dt repo now).personal_data.authors.count (authorStr cd) = 1 := by
  have hpd : (scan_repository sc dt repo now).personal_data
      = extract_personal_data (scan_commit_history sc repo.commitStream).commits := rfl
  have hca : (scan_repository sc dt repo now).commit_analysis
      = (scan_commit_history sc repo.commitStream).commits := rfl
  rw [hpd, hca]
  unfold extract_personal_data
  obtain ⟨h1, h2, h3⟩ :=
    extract_fold_nodup (scan_commit_history sc repo.commitStream).commits
      ⟨[], [], [], []⟩ List.nodup_nil List.nodup_nil List.nodup_nil
  refine ⟨h1, h2, h3, ?_⟩
  intro cd hcd
  exact List.count_eq_one_of_mem h1 (mem_authors_extract _ _ cd hcd)

/-- C9 witness: the deduplication property evaluated on a concrete
single-commit repository, with the count conjunct instantiated at that
commit's record. -/
theorem c9_witness :
    commitDataOf sc0 c0 ∈ (scan_repository sc0 dt0 repo1 "T").commit_analysis
    ∧ (scan_repository sc0 dt0 repo1 "T").personal_data.authors.count
        (authorStr (commitDataOf sc0 c0)) = 1 := by
  have hmem : commitDataOf sc0 c0 ∈ (scan_repository sc0 dt0 repo1 "T").commit_analysis := by
    show commitDataOf sc0 c0 ∈ [commitDataOf sc0 c0]
    exact List.mem_singleton.mpr rfl
  exact ⟨hmem, (c9_scanresult_dedup sc0 dt0 repo1 "T").2.2.2 (commitDataOf sc0 c0) hmem⟩

end GDPRValidator
